import Mathlib

/-
Verification of the monitoring engine: status calculator (monitor_thread.py,
MonitorThread._calculate_status), host repository (core/host_repository.py)
and configuration validation (models.py, AppConfig).

Timestamps are ISO strings in the source, parsed with datetime.fromisoformat
and compared by elapsed seconds.  We embed a timestamp string as a three-way
value: absent (None or empty string, both falsy in Python), a parseable
string carrying its instant as an integer number of seconds, or a non-empty
unparseable string (fromisoformat raises ValueError).
-/

set_option autoImplicit false

namespace Monitoring

/-- A timestamp field as stored in a Host record: absent (None or the empty
string), parseable with value t (seconds), or present but unparseable. -/
inductive TimeStr where
  | none
  | valid (t : Int)
  | invalid
  deriving DecidableEq

/-- Host dataclass (models.py).  Field names and defaults follow the source;
status is a plain string there (tests even use the out-of-enum value
UNKNOWN), so it is a String here as well. -/
structure Host where
  name : String
  ip : String
  address : String := ""
  group : String := "Без группы"
  status : String := "ONLINE"
  last_seen : TimeStr := TimeStr.none
  offline_since : TimeStr := TimeStr.none
  notified : Bool := false
  notifications_enabled : Bool := true
  id : String
  deriving DecidableEq

/-- AppConfig dataclass (models.py) with the source defaults. -/
structure AppConfig where
  poll_interval : Int := 10
  waiting_timeout : Int := 60
  offline_timeout : Int := 300
  notifications_enabled : Bool := true
  sound_enabled : Bool := false
  max_workers : Int := 20
  column_widths : List (String × Int) := []
  column_order : List Int := []
  hidden_columns : List Int := []
  theme : String := "light"
  custom_groups : List String := []
  deriving DecidableEq

/-- AppConfig.post-init validation (models.py lines 170-179): true iff no
ValueError is raised.  The source checks four independent ranges and nothing
else. -/
def AppConfig.postInitOk (c : AppConfig) : Bool :=
  decide ((1 ≤ c.poll_interval ∧ c.poll_interval ≤ 3600)
    ∧ (5 ≤ c.waiting_timeout ∧ c.waiting_timeout ≤ 3600)
    ∧ (10 ≤ c.offline_timeout ∧ c.offline_timeout ≤ 7200)
    ∧ (1 ≤ c.max_workers ∧ c.max_workers ≤ 100))

/-- The ping_status strings that MonitorThread._check_host can pass to
_calculate_status: ONLINE on a successful ping, OFFLINE on a failed ping or
an exception, MAINTENANCE for a host in maintenance (which is never
probed). -/
inductive PingStatus where
  | online
  | offline
  | maintenance
  deriving DecidableEq

/-- Probe outcomes in the sense of the specification (section 4.3). -/
inductive ProbeOutcome where
  | healthy
  | unhealthy
  | error
  deriving DecidableEq

/-- How a probe outcome reaches _calculate_status as a ping_status string
(_check_host): success maps to ONLINE, explicit failure and probe error both
map to OFFLINE. -/
def pingOf : ProbeOutcome → PingStatus
  | ProbeOutcome.healthy => PingStatus.online
  | ProbeOutcome.unhealthy => PingStatus.offline
  | ProbeOutcome.error => PingStatus.offline

/-- MonitorThread._calculate_status (monitor_thread.py lines 200-269),
translated branch for branch.  Returns (new_status, offline_since,
should_update).  current_time is the cycle timestamp in seconds;
isoformat(current_time) is embedded as TimeStr.valid current_time, and
fromisoformat on a TimeStr.invalid raises ValueError (the except branch). -/
def calculateStatus (cfg : AppConfig) (host : Host) (ping_status : PingStatus)
    (current_time : Int) : String × TimeStr × Bool :=
  match ping_status with
  | PingStatus.online =>
    if host.status ≠ "ONLINE" then
      ("ONLINE", TimeStr.none, true)
    else
      match host.last_seen with
      | TimeStr.none => (host.status, host.offline_since, true)
      | TimeStr.invalid => (host.status, host.offline_since, true)
      | TimeStr.valid last_seen_dt =>
        (host.status, host.offline_since, decide (current_time - last_seen_dt > 60))
  | _ =>
    if host.status = "MAINTENANCE" then
      (host.status, host.offline_since, false)
    else
      let os1 : TimeStr :=
        if host.offline_since = TimeStr.none then TimeStr.valid current_time
        else host.offline_since
      let su1 : Bool := decide (host.offline_since = TimeStr.none)
      match os1 with
      | TimeStr.none => (host.status, os1, su1)
      | TimeStr.invalid => (host.status, TimeStr.valid current_time, true)
      | TimeStr.valid start_dt =>
        let duration : Int := current_time - start_dt
        let calculated_status : String :=
          if duration ≥ cfg.offline_timeout then "OFFLINE"
          else if duration ≥ cfg.waiting_timeout then "WAITING"
          else host.status
        if calculated_status ≠ host.status then (calculated_status, os1, true)
        else (host.status, os1, su1)

/-- The config used by the monitor-logic tests and the scenarios of the
spec: waiting_timeout 5 s, offline_timeout 30 s. -/
def cfgA : AppConfig :=
  { poll_interval := 2, waiting_timeout := 5, offline_timeout := 30, max_workers := 5 }

example : calculateStatus cfgA
    { name := "Local", ip := "127.0.0.1", id := "1", status := "MAINTENANCE" }
    PingStatus.offline 0 = ("MAINTENANCE", TimeStr.none, false) := by decide

example : calculateStatus cfgA
    { name := "Local", ip := "127.0.0.1", id := "1", status := "ONLINE",
      offline_since := TimeStr.valid 0 }
    PingStatus.offline 10 = ("WAITING", TimeStr.valid 0, true) := by decide

example : calculateStatus cfgA
    { name := "Local", ip := "127.0.0.1", id := "1", status := "OFFLINE",
      offline_since := TimeStr.invalid }
    PingStatus.online 3 = ("ONLINE", TimeStr.none, true) := by decide

/-
Host repository (core/host_repository.py).  The internal Python dict
(insertion-ordered, keyed by host id) is embedded as an association list;
assigning to an existing key replaces the value in place, assigning to a
fresh key appends.  Qt signal emissions are collected into an event list in
emission order; the source always emits after releasing the mutex, which a
sequential model renders as: the returned state together with the events
emitted by that call.
-/

/-- Dict lookup by key. -/
def lookupKey {α : Type} : List (String × α) → String → Option α
  | [], _ => Option.none
  | (k, v) :: rest, key => if k = key then some v else lookupKey rest key

/-- Dict assignment: replace in place when the key exists, append when it
does not (Python dict semantics). -/
def setKey {α : Type} : List (String × α) → String → α → List (String × α)
  | [], key, v => [(key, v)]
  | (k, v0) :: rest, key, v =>
    if k = key then (key, v) :: rest else (k, v0) :: setKey rest key v

/-- The repository state: the private hosts dict. -/
structure RepoState where
  hosts : List (String × Host)
  deriving DecidableEq

/-- The Qt signals of HostRepository, as structured events. -/
inductive RepoEvent where
  | host_added (id : String)
  | host_updated (id : String) (old_host new_host : Host)
  | host_deleted (id : String) (deleted_host : Host)
  | hosts_loaded (hosts : List Host)
  | status_changed (id old_status new_status : String)
  | hosts_batch_updated (changes : List (String × String × String))
  deriving DecidableEq

/-- HostRepository.add (lines 134-149).  On a duplicate id the source logs a
warning and returns None without touching the dict or emitting anything; on
success it inserts and emits host_added.  The Python function is annotated
to return None on every path, so the caller receives no success or error
value in either case. -/
def RepoState.add (s : RepoState) (host : Host) : RepoState × List RepoEvent :=
  match lookupKey s.hosts host.id with
  | some _ => (s, [])
  | Option.none =>
    (⟨setKey s.hosts host.id host⟩, [RepoEvent.host_added host.id])

/-- HostRepository.update (lines 151-173): full replace; emits host_updated
(plus status_changed when the status differs) when the id existed, and
host_added when it did not (the record is created). -/
def RepoState.update (s : RepoState) (host : Host) : RepoState × List RepoEvent :=
  let old_host := lookupKey s.hosts host.id
  let s1 : RepoState := ⟨setKey s.hosts host.id host⟩
  match old_host with
  | some old =>
    (s1, RepoEvent.host_updated host.id old host ::
      (if old.status ≠ host.status then
        [RepoEvent.status_changed host.id old.status host.status]
      else []))
  | Option.none => (s1, [RepoEvent.host_added host.id])

/-- HostRepository.update_status (lines 194-230).  A missing id logs a
warning and returns with no change and no event.  Otherwise the record is
rebuilt with dataclass replace: offline_since is taken from the argument
only when truthy, notified is reset on ONLINE, and offline_since is reset
to None only when new_status is ONLINE and the old status was not ONLINE.
status_changed is emitted only when the status actually changed.  The
source also accepts an unused offline_time argument, kept here. -/
def RepoState.update_status (s : RepoState) (host_id new_status : String)
    (offline_since : TimeStr) (offline_time : Option String) :
    RepoState × List RepoEvent :=
  match lookupKey s.hosts host_id with
  | Option.none => (s, [])
  | some host =>
    let updated_host : Host :=
      { host with
        status := new_status,
        offline_since :=
          if offline_since ≠ TimeStr.none then offline_since else host.offline_since,
        notified := if new_status = "ONLINE" then false else host.notified }
    let updated_host2 : Host :=
      if new_status = "ONLINE" ∧ host.status ≠ "ONLINE" then
        { updated_host with offline_since := TimeStr.none }
      else updated_host
    (⟨setKey s.hosts host_id updated_host2⟩,
      if host.status ≠ new_status then
        [RepoEvent.status_changed host_id host.status new_status]
      else [])

/-- The loop body of HostRepository.bulk_update_status (lines 241-264):
walks the update tuples in order, skipping absent ids and entries whose new
status equals the stored one, rewriting the dict as it goes, and collecting
the (id, old, new) triples of the real transitions in order. -/
def bulkUpdateGo : List (String × Host) → List (String × String × TimeStr) →
    List (String × Host) × List (String × String × String)
  | hosts, [] => (hosts, [])
  | hosts, (host_id, new_status, offline_since) :: rest =>
    match lookupKey hosts host_id with
    | Option.none => bulkUpdateGo hosts rest
    | some host =>
      if host.status = new_status then bulkUpdateGo hosts rest
      else
        let updated_host : Host :=
          { host with
            status := new_status,
            offline_since :=
              if new_status ≠ "ONLINE" then offline_since else TimeStr.none,
            notified := if new_status = "ONLINE" then false else host.notified }
        let r := bulkUpdateGo (setKey hosts host_id updated_host) rest
        (r.1, (host_id, host.status, new_status) :: r.2)

/-- HostRepository.bulk_update_status (lines 232-269): apply the loop, then
emit a single hosts_batch_updated signal iff at least one status actually
changed. -/
def RepoState.bulk_update_status (s : RepoState)
    (status_updates : List (String × String × TimeStr)) :
    RepoState × List RepoEvent :=
  let r := bulkUpdateGo s.hosts status_updates
  (⟨r.1⟩,
    if r.2 ≠ [] then [RepoEvent.hosts_batch_updated r.2] else [])

/-- The statuses held in a hosts dict, keyed by id. -/
def statusesOf (hosts : List (String × Host)) : List (String × String) :=
  hosts.map (fun p => (p.1, p.2.status))

/-- Specification-side description of a bulk update, following the spec
wording: the list of (id, old, new) triples of the entries whose new status
differs from the stored old status, no-op entries and absent ids dropped;
it threads only the statuses, nothing else of the records. -/
def specBatchChanges : List (String × String) → List (String × String × TimeStr) →
    List (String × String × String)
  | _, [] => []
  | statuses, (host_id, new_status, _) :: rest =>
    match lookupKey statuses host_id with
    | Option.none => specBatchChanges statuses rest
    | some old_status =>
      if old_status = new_status then specBatchChanges statuses rest
      else (host_id, old_status, new_status) ::
        specBatchChanges (setKey statuses host_id new_status) rest

/-
Helper lemmas.
-/

theorem lookupKey_statusesOf (hosts : List (String × Host)) (key : String) :
    lookupKey (statusesOf hosts) key = (lookupKey hosts key).map Host.status := by
  induction hosts with
  | nil => rfl
  | cons p rest ih =>
    obtain ⟨k, h⟩ := p
    simp only [statusesOf, List.map_cons, lookupKey] at *
    by_cases hk : k = key
    · simp [hk]
    · simp [hk, ih]

theorem statusesOf_setKey (hosts : List (String × Host)) (key : String) (h : Host) :
    statusesOf (setKey hosts key h) = setKey (statusesOf hosts) key h.status := by
  induction hosts with
  | nil => rfl
  | cons p rest ih =>
    obtain ⟨k, v⟩ := p
    simp only [statusesOf, List.map_cons, setKey] at *
    by_cases hk : k = key
    · simp [hk, statusesOf]
    · simp [hk, statusesOf, ih]

theorem lookupKey_setKey_self {α : Type} (l : List (String × α)) (key : String) (v : α) :
    lookupKey (setKey l key v) key = some v := by
  induction l with
  | nil => simp [setKey, lookupKey]
  | cons p rest ih =>
    obtain ⟨k, v0⟩ := p
    by_cases hk : k = key
    · simp [setKey, hk, lookupKey]
    · simp [setKey, hk, lookupKey, ih]

theorem lookupKey_setKey_ne {α : Type} (l : List (String × α)) (key key' : String)
    (v : α) (hne : key' ≠ key) :
    lookupKey (setKey l key' v) key = lookupKey l key := by
  induction l with
  | nil => simp [setKey, lookupKey, hne]
  | cons p rest ih =>
    obtain ⟨k, v0⟩ := p
    by_cases hk : k = key'
    · simp [setKey, hk, lookupKey, hne]
    · simp only [setKey, if_neg hk, lookupKey]
      by_cases hk2 : k = key
      · simp [hk2]
      · simp [hk2, ih]

/-- The loop of bulk_update_status produces exactly the change triples that
the spec-side description computes from the statuses alone. -/
theorem bulkUpdateGo_changes (us : List (String × String × TimeStr))
    (hosts : List (String × Host)) :
    (bulkUpdateGo hosts us).2 = specBatchChanges (statusesOf hosts) us := by
  induction us generalizing hosts with
  | nil => rfl
  | cons u rest ih =>
    obtain ⟨host_id, new_status, offline_since⟩ := u
    simp only [bulkUpdateGo, specBatchChanges, lookupKey_statusesOf]
    cases hl : lookupKey hosts host_id with
    | none => simpa using ih hosts
    | some host =>
      simp only [Option.map_some']
      by_cases hs : host.status = new_status
      · simpa [hs] using ih hosts
      · simp only [if_neg hs]
        rw [ih, statusesOf_setKey]

/-- The loop of bulk_update_status never creates a record for an id that is
absent from the dict. -/
theorem bulkUpdateGo_lookup_none (us : List (String × String × TimeStr))
    (hosts : List (String × Host)) (key : String)
    (h : lookupKey hosts key = Option.none) :
    lookupKey (bulkUpdateGo hosts us).1 key = Option.none := by
  induction us generalizing hosts with
  | nil => simpa [bulkUpdateGo]
  | cons u rest ih =>
    obtain ⟨host_id, new_status, offline_since⟩ := u
    simp only [bulkUpdateGo]
    cases hl : lookupKey hosts host_id with
    | none => exact ih hosts h
    | some host =>
      have hne : host_id ≠ key := by
        intro he
        rw [he, h] at hl
        exact Option.noConfusion hl
      by_cases hs : host.status = new_status
      · simpa [hs] using ih hosts h
      · simp only [if_neg hs]
        exact ih _ (by rwa [lookupKey_setKey_ne _ _ _ _ hne])

/-- The spec-side change list never mentions an id absent from the
statuses. -/
theorem specBatchChanges_not_mem (us : List (String × String × TimeStr))
    (statuses : List (String × String)) (key : String)
    (h : lookupKey statuses key = Option.none) :
    ∀ c ∈ specBatchChanges statuses us, c.1 ≠ key := by
  induction us generalizing statuses with
  | nil => simp [specBatchChanges]
  | cons u rest ih =>
    obtain ⟨host_id, new_status, offline_since⟩ := u
    simp only [specBatchChanges]
    cases hl : lookupKey statuses host_id with
    | none => exact ih statuses h
    | some old_status =>
      have hne : host_id ≠ key := by
        intro he
        rw [he, h] at hl
        exact Option.noConfusion hl
      by_cases hs : old_status = new_status
      · simpa [hs] using ih statuses h
      · simp only [if_neg hs]
        intro c hc
        rcases List.mem_cons.mp hc with hc1 | hc2
        · simpa [hc1] using hne
        · exact ih _ (by rwa [lookupKey_setKey_ne _ _ _ _ hne]) c hc2

/-- The staged-degradation target status, as computed inside
_calculate_status from the elapsed unhealthy duration. -/
def statusAfter (cfg : AppConfig) (st : String) (duration : Int) : String :=
  if duration ≥ cfg.offline_timeout then "OFFLINE"
  else if duration ≥ cfg.waiting_timeout then "WAITING"
  else st

/-- A probe outcome other than HEALTHY reaches the calculator as the
OFFLINE ping status. -/
theorem pingOf_ne_healthy (o : ProbeOutcome) (ho : o ≠ ProbeOutcome.healthy) :
    pingOf o = PingStatus.offline := by
  cases o with
  | healthy => exact absurd rfl ho
  | unhealthy => rfl
  | error => rfl

/-- Shape of the unhealthy branch for a non-maintenance host with a set and
parseable offline_since: the result is the staged target status, the
existing timestamp unchanged, and a persist flag exactly when the status
moved. -/
theorem calculateStatus_offline_valid (cfg : AppConfig) (host : Host) (t now : Int)
    (hm : host.status ≠ "MAINTENANCE") (hos : host.offline_since = TimeStr.valid t) :
    calculateStatus cfg host PingStatus.offline now =
      (statusAfter cfg host.status (now - t), TimeStr.valid t,
        decide (statusAfter cfg host.status (now - t) ≠ host.status)) := by
  simp only [calculateStatus, hos, if_neg hm, statusAfter]
  by_cases hc : (if now - t ≥ cfg.offline_timeout then "OFFLINE"
      else if now - t ≥ cfg.waiting_timeout then "WAITING" else host.status) = host.status
  · simp [hc]
  · simp [hc]

/-
Concrete fixtures used by the scenario conjuncts, counterexamples and
witnesses.
-/

/-- A host under maintenance. -/
def hostMaint : Host :=
  { name := "Local", ip := "127.0.0.1", id := "1", status := "MAINTENANCE" }

/-- Scenario A, t = 0: ONLINE host, no unhealthy-since yet. -/
def hostScenA0 : Host :=
  { name := "Local", ip := "127.0.0.1", id := "1", status := "ONLINE" }

/-- Scenario A, t = 10: still ONLINE, first failure recorded at 0. -/
def hostScenA10 : Host :=
  { name := "Local", ip := "127.0.0.1", id := "1", status := "ONLINE",
    offline_since := TimeStr.valid 0 }

/-- Scenario A, t = 40: WAITING since the probe at t = 10, first failure at 0. -/
def hostScenA40 : Host :=
  { name := "Local", ip := "127.0.0.1", id := "1", status := "WAITING",
    offline_since := TimeStr.valid 0 }

/-- Scenario B: OFFLINE host with unhealthy-since set. -/
def hostScenB : Host :=
  { name := "Local", ip := "127.0.0.1", id := "1", status := "OFFLINE",
    offline_since := TimeStr.valid 0 }

/-- ONLINE host whose last_seen is 61 s older than the probe time 100. -/
def hostSeenOld : Host :=
  { name := "Local", ip := "127.0.0.1", id := "1", status := "ONLINE",
    last_seen := TimeStr.valid 39 }

/-- ONLINE host whose last_seen equals the probe time 100. -/
def hostSeenNow : Host :=
  { name := "Local", ip := "127.0.0.1", id := "1", status := "ONLINE",
    last_seen := TimeStr.valid 100 }

/-
Claims about the status calculator.
-/

/-- Claim C1, counterexample: a MAINTENANCE host fed the HEALTHY probe
outcome is transitioned to ONLINE with its unhealthy-since cleared and
shouldPersist true — not returned unchanged with shouldPersist false as the
claim states.  (The running program never reaches this input, because
_check_host does not probe MAINTENANCE hosts and passes the MAINTENANCE
sentinel instead.) -/
theorem c1_maintenance_healthy_counterexample :
    hostMaint.status = "MAINTENANCE" ∧
    calculateStatus cfgA hostMaint (pingOf ProbeOutcome.healthy) 0 =
      ("ONLINE", TimeStr.none, true) ∧
    calculateStatus cfgA hostMaint (pingOf ProbeOutcome.healthy) 0 ≠
      (hostMaint.status, hostMaint.offline_since, false) := by decide

/-- Claim C1, amended: for every MAINTENANCE host, every probe time and
every probe outcome other than HEALTHY (that is, UNHEALTHY or ERROR), the
status calculation returns the status and unhealthy-since unchanged with
shouldPersist false. -/
theorem c1_maintenance_unchanged (cfg : AppConfig) (host : Host) (o : ProbeOutcome)
    (now : Int) (hstat : host.status = "MAINTENANCE") (ho : o ≠ ProbeOutcome.healthy) :
    calculateStatus cfg host (pingOf o) now = (host.status, host.offline_since, false) := by
  rw [pingOf_ne_healthy o ho]
  simp [calculateStatus, hstat]

/-- Witness for c1_maintenance_unchanged at the concrete maintenance host. -/
theorem c1_maintenance_unchanged_witness :
    calculateStatus cfgA hostMaint (pingOf ProbeOutcome.unhealthy) 0 =
      (hostMaint.status, hostMaint.offline_since, false) :=
  c1_maintenance_unchanged cfgA hostMaint ProbeOutcome.unhealthy 0 rfl (by decide)

/-- Claim C2: for a host not in MAINTENANCE, an unhealthy probe outcome and
a set parseable unhealthy-since t, with elapsed = now - t: elapsed at least
offline_timeout gives OFFLINE, elapsed in [waiting_timeout,
offline_timeout) gives WAITING, elapsed below waiting_timeout leaves the
status unchanged; and the Scenario A chain with waiting_timeout 5,
offline_timeout 30: first failure at 0 stays ONLINE with unhealthy-since 0,
the probe at 10 gives WAITING, the probe at 40 gives OFFLINE. -/
theorem c2_staged_degradation (cfg : AppConfig) (host : Host) (o : ProbeOutcome)
    (t now : Int) (hwo : cfg.waiting_timeout < cfg.offline_timeout)
    (hm : host.status ≠ "MAINTENANCE") (ho : o ≠ ProbeOutcome.healthy)
    (hos : host.offline_since = TimeStr.valid t) :
    (now - t ≥ cfg.offline_timeout →
      (calculateStatus cfg host (pingOf o) now).1 = "OFFLINE") ∧
    (cfg.waiting_timeout ≤ now - t ∧ now - t < cfg.offline_timeout →
      (calculateStatus cfg host (pingOf o) now).1 = "WAITING") ∧
    (now - t < cfg.waiting_timeout →
      (calculateStatus cfg host (pingOf o) now).1 = host.status) ∧
    calculateStatus cfgA hostScenA0 (pingOf ProbeOutcome.unhealthy) 0 =
      ("ONLINE", TimeStr.valid 0, true) ∧
    calculateStatus cfgA hostScenA10 (pingOf ProbeOutcome.unhealthy) 10 =
      ("WAITING", TimeStr.valid 0, true) ∧
    calculateStatus cfgA hostScenA40 (pingOf ProbeOutcome.unhealthy) 40 =
      ("OFFLINE", TimeStr.valid 0, true) := by
  rw [pingOf_ne_healthy o ho, calculateStatus_offline_valid cfg host t now hm hos]
  refine ⟨?_, ?_, ?_, by decide, by decide, by decide⟩
  · intro h
    simp [statusAfter, h]
  · intro h
    have h1 : ¬ now - t ≥ cfg.offline_timeout := not_le.mpr h.2
    simp [statusAfter, h1, h.1]
  · intro h
    have h1 : ¬ now - t ≥ cfg.offline_timeout := not_le.mpr (h.trans hwo)
    have h2 : ¬ now - t ≥ cfg.waiting_timeout := not_le.mpr h
    simp [statusAfter, h1, h2]

/-- Witness for c2_staged_degradation: the probe at t = 40 of Scenario A. -/
theorem c2_staged_degradation_witness :
    (calculateStatus cfgA hostScenA40 (pingOf ProbeOutcome.unhealthy) 40).1 = "OFFLINE" :=
  (c2_staged_degradation cfgA hostScenA40 ProbeOutcome.unhealthy 0 40
    (by decide) (by decide) (by decide) rfl).1 (by decide)

/-- Claim C5: for an ONLINE host with a HEALTHY probe outcome,
shouldPersist is true exactly when last_seen is unset, unparseable, or more
than 60 s older than now; status and unhealthy-since are unchanged; in
particular last_seen = now - 61 gives true and last_seen = now gives
false. -/
theorem c5_heartbeat_throttle (cfg : AppConfig) (host : Host) (now : Int)
    (hstat : host.status = "ONLINE") :
    ((calculateStatus cfg host (pingOf ProbeOutcome.healthy) now).2.2 = true ↔
      host.last_seen = TimeStr.none ∨ host.last_seen = TimeStr.invalid ∨
        ∃ ls, host.last_seen = TimeStr.valid ls ∧ now - ls > 60) ∧
    (calculateStatus cfg host (pingOf ProbeOutcome.healthy) now).1 = host.status ∧
    (calculateStatus cfg host (pingOf ProbeOutcome.healthy) now).2.1 = host.offline_since ∧
    (calculateStatus cfgA hostSeenOld (pingOf ProbeOutcome.healthy) 100).2.2 = true ∧
    (calculateStatus cfgA hostSeenNow (pingOf ProbeOutcome.healthy) 100).2.2 = false := by
  refine ⟨?_, ?_, ?_, by decide, by decide⟩ <;>
    cases hls : host.last_seen <;>
      simp [calculateStatus, pingOf, hstat, hls]

/-- Witness for c5_heartbeat_throttle at last_seen = now - 61. -/
theorem c5_heartbeat_throttle_witness :
    (calculateStatus cfgA hostSeenOld (pingOf ProbeOutcome.healthy) 100).2.2 = true :=
  (c5_heartbeat_throttle cfgA hostSeenOld 100 rfl).1.mpr
    (Or.inr (Or.inr ⟨39, rfl, by decide⟩))

/-- Claim C6: a host that is neither ONLINE nor MAINTENANCE becomes ONLINE
with unhealthy-since cleared and shouldPersist true on a single HEALTHY
probe outcome. -/
theorem c6_healthy_recovery (cfg : AppConfig) (host : Host) (now : Int)
    (h1 : host.status ≠ "ONLINE") (h2 : host.status ≠ "MAINTENANCE") :
    calculateStatus cfg host (pingOf ProbeOutcome.healthy) now =
      ("ONLINE", TimeStr.none, true) := by
  simp [calculateStatus, pingOf, h1]

/-- Witness for c6_healthy_recovery: Scenario B, an OFFLINE host with
unhealthy-since set recovers on one HEALTHY probe. -/
theorem c6_healthy_recovery_witness :
    calculateStatus cfgA hostScenB (pingOf ProbeOutcome.healthy) 5 =
      ("ONLINE", TimeStr.none, true) :=
  c6_healthy_recovery cfgA hostScenB 5 (by decide) (by decide)

/-- Claim C8, counterexample: an ONLINE host with unhealthy-since 0, probed
UNHEALTHY at time 1 (inside the 5 s grace window of cfgA), keeps status
ONLINE while its returned unhealthy-since stays 0, not null — so
unhealthy-since is not null exactly when the returned status is ONLINE. -/
theorem c8_grace_period_counterexample :
    hostScenA10.status = "ONLINE" ∧
    hostScenA10.offline_since = TimeStr.valid 0 ∧
    calculateStatus cfgA hostScenA10 (pingOf ProbeOutcome.unhealthy) 1 =
      ("ONLINE", TimeStr.valid 0, false) ∧
    TimeStr.valid 0 ≠ TimeStr.none := by decide

/-- Claim C8, amended: with a set parseable unhealthy-since t and an
UNHEALTHY or ERROR outcome, the calculation returns unhealthy-since equal
to t (so it is never moved backward), and it returns a null unhealthy-since
only when the returned status is ONLINE (vacuously here: in this branch it
is never null; it may remain set while the status is still ONLINE during
the grace period). -/
theorem c8_unhealthy_since_monotone (cfg : AppConfig) (host : Host) (o : ProbeOutcome)
    (t now : Int) (ho : o ≠ ProbeOutcome.healthy)
    (hos : host.offline_since = TimeStr.valid t) :
    (calculateStatus cfg host (pingOf o) now).2.1 = TimeStr.valid t ∧
    ((calculateStatus cfg host (pingOf o) now).2.1 = TimeStr.none →
      (calculateStatus cfg host (pingOf o) now).1 = "ONLINE") := by
  rw [pingOf_ne_healthy o ho]
  by_cases hm : host.status = "MAINTENANCE"
  · simp [calculateStatus, hm, hos]
  · rw [calculateStatus_offline_valid cfg host t now hm hos]
    simp

/-- Witness for c8_unhealthy_since_monotone at the grace-period host. -/
theorem c8_unhealthy_since_monotone_witness :
    (calculateStatus cfgA hostScenA10 (pingOf ProbeOutcome.unhealthy) 1).2.1 =
      TimeStr.valid 0 :=
  (c8_unhealthy_since_monotone cfgA hostScenA10 ProbeOutcome.unhealthy 0 1
    (by decide) rfl).1

/-
Claims about the host repository.
-/

/-- An ONLINE host that still carries an unhealthy-since timestamp (the
transient grace-period state the calculator can produce). -/
def hostOnlineGrace : Host :=
  { name := "H1", ip := "1.1.1.1", id := "1", status := "ONLINE",
    offline_since := TimeStr.valid 7 }

/-- A store holding hostOnlineGrace under id 1. -/
def storeC4 : RepoState := ⟨[("1", hostOnlineGrace)]⟩

/-- Claim C4, counterexample: updateStatus(1, ONLINE) on a host that is
already ONLINE with a non-null offline_since leaves the stored
offline_since at its old value instead of resetting it to null. -/
theorem c4_update_status_counterexample :
    hostOnlineGrace.status = "ONLINE" ∧
    (lookupKey (storeC4.update_status "1" "ONLINE" TimeStr.none Option.none).1.hosts
        "1").map Host.offline_since = some (TimeStr.valid 7) ∧
    some (TimeStr.valid 7) ≠ some TimeStr.none := by decide

/-- Claim C4, amended: for a present host, updateStatus(id, ONLINE,
unhealthySince?) stores a null offline_since whenever the previous status
was not ONLINE (regardless of the argument); when the previous status was
already ONLINE the stored offline_since is the passed argument if non-null
and the previous value otherwise. -/
theorem c4_update_status_online (s : RepoState) (host_id : String) (os : TimeStr)
    (ot : Option String) (host : Host)
    (hfind : lookupKey s.hosts host_id = some host) :
    (lookupKey (s.update_status host_id "ONLINE" os ot).1.hosts host_id).map
        Host.offline_since =
      some (if host.status ≠ "ONLINE" then TimeStr.none
            else if os ≠ TimeStr.none then os else host.offline_since) := by
  simp only [RepoState.update_status, hfind]
  by_cases hst : host.status = "ONLINE"
  · have hcond : ¬("ONLINE" = "ONLINE" ∧ host.status ≠ "ONLINE") := by simp [hst]
    simp only [if_neg hcond, lookupKey_setKey_self, Option.map_some']
    simp [hst]
  · have hcond : ("ONLINE" = "ONLINE" ∧ host.status ≠ "ONLINE") := ⟨rfl, hst⟩
    simp only [if_pos hcond, lookupKey_setKey_self, Option.map_some']
    simp [hst]

/-- Witness for c4_update_status_online at the already-ONLINE host. -/
theorem c4_update_status_online_witness :
    (lookupKey (storeC4.update_status "1" "ONLINE" TimeStr.none Option.none).1.hosts
        "1").map Host.offline_since =
      some (if hostOnlineGrace.status ≠ "ONLINE" then TimeStr.none
            else if (TimeStr.none : TimeStr) ≠ TimeStr.none then TimeStr.none
            else hostOnlineGrace.offline_since) :=
  c4_update_status_online storeC4 "1" TimeStr.none Option.none hostOnlineGrace rfl

/-- A config whose four fields all lie inside their validated ranges while
waiting_timeout far exceeds offline_timeout. -/
def cfgBad : AppConfig := { waiting_timeout := 3600, offline_timeout := 10 }

/-- Claim C9, counterexample: the config validator accepts a configuration
with waiting_timeout = 3600 and offline_timeout = 10, so acceptance does
not imply waiting_timeout less than offline_timeout. -/
theorem c9_validation_counterexample :
    AppConfig.postInitOk cfgBad = true ∧
    cfgBad.waiting_timeout ≥ cfgBad.offline_timeout := by decide

/-- Claim C9, amended: config validation accepts a configuration exactly
when its four numeric fields lie in their ranges (poll_interval 1..3600,
waiting_timeout 5..3600, offline_timeout 10..7200, max_workers 1..100); it
performs no cross-field comparison, so it does not guarantee
waiting_timeout less than offline_timeout for accepted configurations. -/
theorem c9_validation_ranges :
    (∀ c : AppConfig, AppConfig.postInitOk c = true ↔
      ((1 ≤ c.poll_interval ∧ c.poll_interval ≤ 3600)
        ∧ (5 ≤ c.waiting_timeout ∧ c.waiting_timeout ≤ 3600)
        ∧ (10 ≤ c.offline_timeout ∧ c.offline_timeout ≤ 7200)
        ∧ (1 ≤ c.max_workers ∧ c.max_workers ≤ 100))) ∧
    ¬ (∀ c : AppConfig, AppConfig.postInitOk c = true →
        c.waiting_timeout < c.offline_timeout) := by
  constructor
  · intro c
    simp [AppConfig.postInitOk]
  · intro h
    exact absurd (h cfgBad (by decide)) (by decide)

/-- The record stored under id 1 before the duplicate add. -/
def hostRec1 : Host := { name := "H1", ip := "1.1.1.1", id := "1" }

/-- A different host carrying the already-present id 1. -/
def hostDup : Host := { name := "Duplicate", ip := "1.1.1.1", id := "1" }

/-- A store already containing id 1. -/
def storeC3 : RepoState := ⟨[("1", hostRec1)]⟩

/-- Claim C3: adding a host with the already-present id 1 leaves the store
(including every field of the existing record) unchanged and emits no
event, while a successful add of the same record to an empty store inserts
it and emits host_added.  The source add returns None on both paths, so the
duplicate case is indistinguishable from success by return value: the
boolean/error result the claim (and the caller in host_manager.py line 29)
expects does not exist. -/
theorem c3_add_duplicate_silent :
    storeC3.add hostDup = (storeC3, []) ∧
    (⟨[]⟩ : RepoState).add hostRec1 =
      (⟨[("1", hostRec1)]⟩, [RepoEvent.host_added "1"]) := by decide

/-- Hosts and updates of Scenario D: one real transition (id 1, ONLINE to
OFFLINE) and two no-op entries. -/
def hostD1 : Host := { name := "H1", ip := "1.1.1.1", id := "1", status := "ONLINE" }

/-- Second Scenario D host, already OFFLINE. -/
def hostD2 : Host := { name := "H2", ip := "1.1.1.2", id := "2", status := "OFFLINE" }

/-- Third Scenario D host, already WAITING. -/
def hostD3 : Host := { name := "H3", ip := "1.1.1.3", id := "3", status := "WAITING" }

/-- Scenario D store. -/
def storeD : RepoState := ⟨[("1", hostD1), ("2", hostD2), ("3", hostD3)]⟩

/-- Scenario D update list: one real transition, two no-ops. -/
def updatesD : List (String × String × TimeStr) :=
  [("1", "OFFLINE", TimeStr.valid 5), ("2", "OFFLINE", TimeStr.none),
    ("3", "WAITING", TimeStr.none)]

/-- Claim C7: bulkUpdateStatus emits at most one batch event, and the event
carries exactly the (id, old, new) triples of the entries whose new status
differs from the stored old status at the moment the entry is applied —
no-op entries and absent ids appear nowhere; the Scenario D call with one
real transition and two no-ops emits a batch event listing only the one
transition. -/
theorem c7_bulk_batch_event :
    (∀ (s : RepoState) (us : List (String × String × TimeStr)),
      (s.bulk_update_status us).2 =
        if specBatchChanges (statusesOf s.hosts) us = [] then []
        else [RepoEvent.hosts_batch_updated (specBatchChanges (statusesOf s.hosts) us)]) ∧
    (∀ (s : RepoState) (us : List (String × String × TimeStr)),
      (s.bulk_update_status us).2.length ≤ 1) ∧
    (storeD.bulk_update_status updatesD).2 =
      [RepoEvent.hosts_batch_updated [("1", "ONLINE", "OFFLINE")]] := by
  have key : ∀ (s : RepoState) (us : List (String × String × TimeStr)),
      (s.bulk_update_status us).2 =
        if specBatchChanges (statusesOf s.hosts) us = [] then []
        else [RepoEvent.hosts_batch_updated (specBatchChanges (statusesOf s.hosts) us)] := by
    intro s us
    simp only [RepoState.bulk_update_status, bulkUpdateGo_changes]
    by_cases h : specBatchChanges (statusesOf s.hosts) us = [] <;> simp [h]
  refine ⟨key, ?_, by decide⟩
  intro s us
  rw [key s us]
  split <;> simp

/-- Claim C10: for an id absent from the store, updateStatus is a complete
no-op (state and events), bulkUpdateStatus never creates a record for that
id and never mentions it in the batch event, while update does create a
record for an absent id. -/
theorem c10_absent_id_noop (s : RepoState) (key : String)
    (habs : lookupKey s.hosts key = Option.none) :
    (∀ (ns : String) (os : TimeStr) (ot : Option String),
      s.update_status key ns os ot = (s, [])) ∧
    (∀ us : List (String × String × TimeStr),
      lookupKey (s.bulk_update_status us).1.hosts key = Option.none) ∧
    (∀ (us : List (String × String × TimeStr)) (chs : List (String × String × String)),
      (s.bulk_update_status us).2 = [RepoEvent.hosts_batch_updated chs] →
        ∀ c ∈ chs, c.1 ≠ key) ∧
    (∀ h : Host, h.id = key → lookupKey (s.update h).1.hosts key = some h) := by
  refine ⟨?_, ?_, ?_, ?_⟩
  · intro ns os ot
    simp [RepoState.update_status, habs]
  · intro us
    exact bulkUpdateGo_lookup_none us s.hosts key habs
  · intro us chs hev c hc
    have hspec : lookupKey (statusesOf s.hosts) key = Option.none := by
      rw [lookupKey_statusesOf, habs]
      rfl
    simp only [RepoState.bulk_update_status] at hev
    by_cases hne : (bulkUpdateGo s.hosts us).2 = []
    · simp [hne] at hev
    · simp only [if_pos hne, List.cons.injEq, and_true,
        RepoEvent.hosts_batch_updated.injEq] at hev
      rw [bulkUpdateGo_changes] at hev
      exact specBatchChanges_not_mem us (statusesOf s.hosts) key hspec c (hev ▸ hc)
  · intro h hid
    subst hid
    cases hl : lookupKey s.hosts h.id <;>
      simp [RepoState.update, hl, lookupKey_setKey_self]

/-- Witness for c10_absent_id_noop: id 2 is absent from the store holding
only id 1, so updateStatus for id 2 changes nothing and emits nothing. -/
theorem c10_absent_id_noop_witness :
    storeC3.update_status "2" "OFFLINE" TimeStr.none Option.none = (storeC3, []) :=
  (c10_absent_id_noop storeC3 "2" (by decide)).1 "OFFLINE" TimeStr.none Option.none

end Monitoring
